import Mathlib

/-!
Shallow embedding of `app/operations/__init__.py` from the
`mod_11_assignment` repository, together with theorems settling the
claims about its specification.

Modelling choices:
- Python `Decimal` operands (and the `int`/`float` operands of the
  standalone functions) are embedded as exact rationals `ℚ`, matching the
  arbitrary-precision exact-arithmetic reading of the spec.
- Python exceptions are embedded as an `Except PyError` result type with
  one constructor per exception class the module uses
  (`ValidationError`, `ValueError`, `TypeError`).
- Python classes passed to the factory are embedded as `OpClass` records
  carrying the class name, whether the class inherits from `Operation`,
  and an optional `execute` implementation (`none` models an abstract
  class that leaves `execute` unimplemented, such as `Operation` itself).
  `PyValue` additionally allows a non-class argument, which Python's
  `issubclass` rejects with a `TypeError`.
- `str.lower` is embedded as `String.toLower` (the registry keys involved
  are ASCII).
- The class-level dict `OperationFactory._operations` is embedded as an
  association list threaded explicitly through `register_operation` and
  `create_operation`.
-/

namespace Ops

/-- Exact-arithmetic embedding of the numeric operands (`Decimal` in the
class-based code, `int`/`float` in the standalone functions). -/
abbrev Decimal := ℚ

/-- The exception classes raised by `app/operations/__init__.py`:
`ValidationError` (from `app.exceptions`), the built-in `ValueError`, and
the built-in `TypeError`. -/
inductive PyError where
  | validationError (msg : String)
  | valueError (msg : String)
  | typeError (msg : String)
  deriving DecidableEq, Repr

/-- Standalone `add(a, b)`: returns `a + b`. -/
def add (a b : Decimal) : Decimal :=
  a + b

/-- Standalone `subtract(a, b)`: returns `a - b`. -/
def subtract (a b : Decimal) : Decimal :=
  a - b

/-- Standalone `multiply(a, b)`: returns `a * b`. -/
def multiply (a b : Decimal) : Decimal :=
  a * b

/-- Standalone `divide(a, b)`: raises `ValueError("Cannot divide by zero!")`
when `b == 0`, otherwise returns `a / b`. -/
def divide (a b : Decimal) : Except PyError Decimal :=
  if b = 0 then .error (.valueError "Cannot divide by zero!")
  else .ok (a / b)

/-- `Operation.validate_operands`: the base-class validation hook is a
no-op (`pass`). -/
def Operation.validate_operands (_a _b : Decimal) : Except PyError Unit :=
  .ok ()

/-- `Addition.execute`: calls `self.validate_operands(a, b)` (the inherited
no-op) and returns `a + b`. -/
def Addition.execute (a b : Decimal) : Except PyError Decimal :=
  match Operation.validate_operands a b with
  | .error e => .error e
  | .ok _ => .ok (a + b)

/-- `Subtraction.execute`: calls `self.validate_operands(a, b)` (the
inherited no-op) and returns `a - b`. -/
def Subtraction.execute (a b : Decimal) : Except PyError Decimal :=
  match Operation.validate_operands a b with
  | .error e => .error e
  | .ok _ => .ok (a - b)

/-- `Multiplication.execute`: calls `self.validate_operands(a, b)` (the
inherited no-op) and returns `a * b`. -/
def Multiplication.execute (a b : Decimal) : Except PyError Decimal :=
  match Operation.validate_operands a b with
  | .error e => .error e
  | .ok _ => .ok (a * b)

/-- `Division.validate_operands`: calls `super().validate_operands(a, b)`,
then raises `ValidationError("Division by zero is not allowed")` when
`b == 0`. -/
def Division.validate_operands (a b : Decimal) : Except PyError Unit :=
  match Operation.validate_operands a b with
  | .error e => .error e
  | .ok _ =>
    if b = 0 then .error (.validationError "Division by zero is not allowed")
    else .ok ()

/-- `Division.execute`: calls `self.validate_operands(a, b)` (the override
above) and returns `a / b`. -/
def Division.execute (a b : Decimal) : Except PyError Decimal :=
  match Division.validate_operands a b with
  | .error e => .error e
  | .ok _ => .ok (a / b)

/-- Embedding of a Python class that may be handed to the factory: its
name, whether it inherits from `Operation`, and its `execute`
implementation (`none` when the class leaves the abstract method
`execute` unimplemented). -/
structure OpClass where
  clsName : String
  inheritsOperation : Bool
  execImpl : Option (Decimal → Decimal → Except PyError Decimal)

/-- Embedding of an arbitrary Python value passed as the
`operation_class` argument of `register_operation`: either a class, or a
non-class value (an instance, a string, ...). -/
inductive PyValue where
  | cls (c : OpClass)
  | nonClass (descr : String)

/-- An instance produced by calling a class: it remembers the class it
was instantiated from. -/
structure OpInstance where
  cls : OpClass

/-- Calling a class object. For a subclass of the ABC `Operation` that
does not implement the abstract method `execute`, Python raises a
`TypeError`; otherwise a fresh instance is produced. -/
def instantiate (c : OpClass) : Except PyError OpInstance :=
  if c.inheritsOperation && c.execImpl.isNone then
    .error (.typeError ("Cannot instantiate abstract class " ++ c.clsName
      ++ " with abstract method execute"))
  else .ok ⟨c⟩

/-- `issubclass(v, Operation)`: `True`/`False` on a class according to the
inheritance relation, and a `TypeError` when the first argument is not a
class at all. -/
def issubclassOperation : PyValue → Except PyError Bool
  | .cls c => .ok c.inheritsOperation
  | .nonClass _ => .error (.typeError "issubclass() arg 1 must be a class")

/-- The class object `Operation` itself: inherits from `Operation`
(reflexively, as `issubclass(Operation, Operation)` holds) and leaves
`execute` abstract. -/
def OperationBase : OpClass := ⟨"Operation", true, none⟩

/-- The class object `Addition`. -/
def AdditionClass : OpClass := ⟨"Addition", true, some Addition.execute⟩

/-- The class object `Subtraction`. -/
def SubtractionClass : OpClass := ⟨"Subtraction", true, some Subtraction.execute⟩

/-- The class object `Multiplication`. -/
def MultiplicationClass : OpClass := ⟨"Multiplication", true, some Multiplication.execute⟩

/-- The class object `Division`. -/
def DivisionClass : OpClass := ⟨"Division", true, some Division.execute⟩

/-- A user-defined concrete subclass of `Operation` (the spec's
`ModVariant`; the unit tests use the analogous `NewOperation`, whose
`execute` returns its first operand). -/
def ModVariantClass : OpClass := ⟨"ModVariant", true, some fun a _b => .ok a⟩

/-- A user-defined class that does not inherit from `Operation` (the unit
tests' `InvalidOperation`, whose body is `pass`). -/
def InvalidOperationClass : OpClass := ⟨"InvalidOperation", false, none⟩

/-- A user-defined abstract subclass of `Operation` that does not
implement `execute`. -/
def AbstractSubclass : OpClass := ⟨"AbstractSubclass", true, none⟩

/-- The registry `OperationFactory._operations`: a dict from string keys
to operation classes, embedded as an association list in insertion
order. -/
abbrev Registry := List (String × OpClass)

/-- `dict.get`: the value at a key, or `none` when the key is absent. -/
def dictGet : Registry → String → Option OpClass
  | [], _ => none
  | (k, v) :: rest, key => if k = key then some v else dictGet rest key

/-- Dict assignment `d[key] = c`: overwrite in place when the key is
present, append otherwise. -/
def dictSet : Registry → String → OpClass → Registry
  | [], key, c => [(key, c)]
  | (k, v) :: rest, key, c =>
    if k = key then (key, c) :: rest else (k, v) :: dictSet rest key c

/-- The initial value of `OperationFactory._operations`, seeding the four
built-in operations. -/
def defaultOperations : Registry :=
  [("add", AdditionClass), ("subtract", SubtractionClass),
   ("multiply", MultiplicationClass), ("divide", DivisionClass)]

/-- `OperationFactory.register_operation(name, operation_class)`: raises
`TypeError("Operation class must inherit from Operation")` when
`issubclass(operation_class, Operation)` is false (and propagates the
`TypeError` that `issubclass` itself raises on a non-class argument),
otherwise stores the class under `name.lower()` and returns the updated
registry. -/
def register_operation (reg : Registry) (name : String)
    (operation_class : PyValue) : Except PyError Registry :=
  match issubclassOperation operation_class with
  | .error e => .error e
  | .ok chk =>
    if !chk then
      .error (.typeError "Operation class must inherit from Operation")
    else
      match operation_class with
      | .cls c => .ok (dictSet reg name.toLower c)
      | .nonClass _ => .ok reg

/-- `OperationFactory.create_operation(operation_type)`: looks up
`operation_type.lower()` in the registry; raises
`ValueError(f"Unknown operation: &operation_type&")` (with the original,
non-lowercased name interpolated) when absent, otherwise instantiates the
stored class. The registry is returned alongside the instance to make the
absence of registry mutation explicit. -/
def create_operation (reg : Registry) (operation_type : String) :
    Except PyError (OpInstance × Registry) :=
  match dictGet reg operation_type.toLower with
  | none => .error (.valueError ("Unknown operation: " ++ operation_type))
  | some operation_class =>
    match instantiate operation_class with
    | .error e => .error e
    | .ok inst => .ok (inst, reg)

/-- Formalization of the claims' phrase "conforms to the Operation
capability set": per the spec's capability surface, instances must
provide working `validate`, `execute` and `describe`, so the class must
inherit from `Operation` (providing `validate_operands` and `__str__`)
and actually implement `execute`. Note this is deliberately distinct from
the weaker check `register_operation` performs (`issubclassOperation`). -/
def conformsToCapabilitySet (c : OpClass) : Bool :=
  c.inheritsOperation && c.execImpl.isSome

/-- The `operation_class` arguments that fail the code's registration
check: classes not inheriting from `Operation`, and non-class values. -/
def notOperationSubclass : PyValue → Bool
  | .cls c => !c.inheritsOperation
  | .nonClass _ => true

/-- Character lists that differ only in letter case. -/
def caseVariantChars : List Char → List Char → Bool
  | [], [] => true
  | c :: cs, d :: ds => (c.toLower = d.toLower) && caseVariantChars cs ds
  | _, _ => false

/-- Strings that differ only in letter case (per-character agreement of
lowercasings). -/
def caseVariant (s t : String) : Bool :=
  caseVariantChars s.data t.data

/-- `String.toLower` as a plain map over the character list. -/
theorem toLower_eq (s : String) : s.toLower = ⟨s.data.map Char.toLower⟩ :=
  String.map_eq Char.toLower s

/-- Character lists that differ only in case have equal lowercasings. -/
theorem caseVariantChars_map_toLower :
    ∀ {l₁ l₂ : List Char}, caseVariantChars l₁ l₂ = true →
      l₁.map Char.toLower = l₂.map Char.toLower := by
  intro l₁
  induction l₁ with
  | nil =>
    intro l₂ h
    cases l₂ with
    | nil => rfl
    | cons d ds => simp [caseVariantChars] at h
  | cons c cs ih =>
    intro l₂ h
    cases l₂ with
    | nil => simp [caseVariantChars] at h
    | cons d ds =>
      simp only [caseVariantChars, Bool.and_eq_true, decide_eq_true_eq] at h
      simp [List.map, h.1, ih h.2]

/-- Strings that differ only in case have equal lowercasings. -/
theorem caseVariant_toLower {s t : String} (h : caseVariant s t = true) :
    s.toLower = t.toLower := by
  rw [toLower_eq, toLower_eq]
  exact congrArg String.mk (caseVariantChars_map_toLower h)

/-- Writing a key into the registry dict makes it readable at that key. -/
theorem dictGet_dictSet (reg : Registry) (key : String) (c : OpClass) :
    dictGet (dictSet reg key c) key = some c := by
  induction reg with
  | nil => simp [dictGet, dictSet]
  | cons hd tl ih =>
    obtain ⟨k, v⟩ := hd
    by_cases hk : k = key
    · simp [dictGet, dictSet, hk]
    · simp [dictGet, dictSet, hk, ih]

/-- A class with an implemented `execute` instantiates successfully. -/
theorem instantiate_of_isSome {c : OpClass} (h : c.execImpl.isSome = true) :
    instantiate c = .ok ⟨c⟩ := by
  have hn : c.execImpl.isNone = false := by
    cases hx : c.execImpl <;> simp_all
  simp [instantiate, hn]

/-- Claim C1: for every dividend `a`, `Division.execute a 0` raises the
validation failure with message "Division by zero is not allowed", and
for every divisor `b ≠ 0`, `Division.execute a b` returns the exact
quotient `a / b`; the validation error short-circuits execute before the
quotient is formed. -/
theorem division_execute_spec (a b : Decimal) (hb : b ≠ 0) :
    Division.execute a 0 =
      .error (.validationError "Division by zero is not allowed") ∧
    Division.execute a b = .ok (a / b) := by
  constructor
  · rfl
  · simp [Division.execute, Division.validate_operands,
      Operation.validate_operands, hb]

/-- Witness for C1 at dividend 6 and divisor 2. -/
theorem division_execute_spec_witness :
    Division.execute 6 0 =
      .error (.validationError "Division by zero is not allowed") ∧
    Division.execute 6 2 = .ok 3 := by
  have h := division_execute_spec 6 2 (by norm_num)
  refine ⟨h.1, ?_⟩
  rw [h.2]
  norm_num

/-- Counterexample to claim C2 as stated: the abstract subclass
`AbstractSubclass` does not conform to the Operation capability set (it
implements no `execute`), yet `register_operation` accepts it and mutates
the registry, so the rejection does not happen at registration time. -/
theorem register_nonconforming_accepted :
    conformsToCapabilitySet AbstractSubclass = false ∧
    register_operation defaultOperations "modulus" (.cls AbstractSubclass) =
      .ok (dictSet defaultOperations "modulus" AbstractSubclass) ∧
    dictGet (dictSet defaultOperations "modulus" AbstractSubclass) "modulus" =
      some AbstractSubclass := by
  have hl : "modulus".toLower = "modulus" := by rw [toLower_eq]; rfl
  refine ⟨rfl, ?_, rfl⟩
  simp only [register_operation, issubclassOperation, hl]
  rfl

/-- Claim C2 (amended): for every argument that is not a class inheriting
from `Operation`, `register_operation` raises a `TypeError` (so no
updated registry is produced and the registry is left unchanged), and a
subsequent `create_operation` on that name still raises the
unknown-operation error whenever the name was not already registered. -/
theorem register_operation_rejects_nonsubclass (reg : Registry)
    (name : String) (v : PyValue) (hv : notOperationSubclass v = true) :
    (∃ msg, register_operation reg name v = .error (.typeError msg)) ∧
    (dictGet reg name.toLower = none →
      create_operation reg name =
        .error (.valueError ("Unknown operation: " ++ name))) := by
  constructor
  · cases v with
    | cls c =>
      refine ⟨"Operation class must inherit from Operation", ?_⟩
      have hc : c.inheritsOperation = false := by
        simpa [notOperationSubclass] using hv
      simp [register_operation, issubclassOperation, hc]
    | nonClass d => exact ⟨"issubclass() arg 1 must be a class", rfl⟩
  · intro hnone
    simp [create_operation, hnone]

/-- Witness for C2 at the unit tests' scenario: registering the
non-inheriting `InvalidOperationClass` under "bad". -/
theorem register_operation_rejects_nonsubclass_witness :
    (∃ msg, register_operation defaultOperations "bad"
      (.cls InvalidOperationClass) = .error (.typeError msg)) ∧
    create_operation defaultOperations "bad" =
      .error (.valueError "Unknown operation: bad") := by
  have hl : "bad".toLower = "bad" := by rw [toLower_eq]; rfl
  have h := register_operation_rejects_nonsubclass defaultOperations "bad"
    (.cls InvalidOperationClass) rfl
  refine ⟨h.1, ?_⟩
  have h2 := h.2 (by rw [hl]; rfl)
  simpa using h2

/-- Claim C3: for every name with no registry entry after lowercase
normalization, `create_operation` raises a generic value error whose
message contains the original, non-normalized requested name. -/
theorem create_operation_unknown (reg : Registry) (name : String)
    (h : dictGet reg name.toLower = none) :
    ∃ msg, create_operation reg name = .error (.valueError msg) ∧
      ∃ pre post, msg = pre ++ (name ++ post) := by
  refine ⟨"Unknown operation: " ++ name, ?_, "Unknown operation: ", "", ?_⟩
  · simp [create_operation, h]
  · rw [String.append_empty]

/-- Witness for C3 at the name "bogus" against the seeded registry. -/
theorem create_operation_unknown_witness :
    ∃ msg, create_operation defaultOperations "bogus" =
      .error (.valueError msg) ∧
      ∃ pre post, msg = pre ++ ("bogus" ++ post) := by
  apply create_operation_unknown
  rw [toLower_eq]
  rfl

/-- Counterexample to claim C4 as stated: the key "mod" is registered in
the factory (storing the abstract `Operation` base, which
`register_operation` accepts), yet `create_operation` fails with a
`TypeError` both for "mod" and for its case variant "MOD" instead of
succeeding. -/
theorem case_insensitive_counterexample :
    register_operation defaultOperations "mod" (.cls OperationBase) =
      .ok (dictSet defaultOperations "mod" OperationBase) ∧
    (∃ msg, create_operation (dictSet defaultOperations "mod" OperationBase)
      "mod" = .error (.typeError msg)) ∧
    (∃ msg, create_operation (dictSet defaultOperations "mod" OperationBase)
      "MOD" = .error (.typeError msg)) := by
  have hl : "mod".toLower = "mod" := by rw [toLower_eq]; rfl
  have hL : "MOD".toLower = "mod" := by rw [toLower_eq]; rfl
  refine ⟨?_,
    ⟨"Cannot instantiate abstract class Operation with abstract method execute", ?_⟩,
    ⟨"Cannot instantiate abstract class Operation with abstract method execute", ?_⟩⟩
  · simp only [register_operation, issubclassOperation, hl]
    rfl
  · simp only [create_operation, hl]
    rfl
  · simp only [create_operation, hL]
    rfl

/-- Claim C4 (amended): for every key stored in the registry and every
case variant of it, `create_operation` behaves identically on the two
spellings, and — provided the stored class implements `execute`, so that
it can be instantiated — both calls succeed and return an instance of the
same operation variant. -/
theorem create_operation_case_insensitive (reg : Registry) (k K : String)
    (c : OpClass) (hvar : caseVariant k K = true)
    (hc : dictGet reg k.toLower = some c) :
    create_operation reg k = create_operation reg K ∧
    (c.execImpl.isSome = true →
      create_operation reg k = .ok (⟨c⟩, reg) ∧
      create_operation reg K = .ok (⟨c⟩, reg)) := by
  have hlow := caseVariant_toLower hvar
  have hcK : dictGet reg K.toLower = some c := by rw [← hlow]; exact hc
  constructor
  · simp [create_operation, hc, hcK]
  · intro hsome
    have hinst := instantiate_of_isSome hsome
    exact ⟨by simp [create_operation, hc, hinst],
      by simp [create_operation, hcK, hinst]⟩

/-- Witness for C4 at the seeded key "add" and its case variant "ADD". -/
theorem create_operation_case_insensitive_witness :
    create_operation defaultOperations "add" =
      create_operation defaultOperations "ADD" ∧
    create_operation defaultOperations "ADD" =
      .ok (⟨AdditionClass⟩, defaultOperations) := by
  have h := create_operation_case_insensitive defaultOperations "add" "ADD"
    AdditionClass rfl (by rw [toLower_eq]; rfl)
  exact ⟨h.1, (h.2 rfl).2⟩

/-- Claim C5: for all operand pairs, the non-dividing variants return the
mathematically exact results `a + b`, `a - b`, `a * b`, and never raise a
validation failure. -/
theorem nondividing_execute_exact (a b : Decimal) :
    Addition.execute a b = .ok (a + b) ∧
    Subtraction.execute a b = .ok (a - b) ∧
    Multiplication.execute a b = .ok (a * b) :=
  ⟨rfl, rfl, rfl⟩

/-- Claim C6: registering a constructor that conforms to the Operation
capability set (it inherits from `Operation` and implements `execute`)
succeeds, and a subsequent `create_operation` on the same name returns a
fresh instance of that very class. -/
theorem register_then_create_roundtrip (reg : Registry) (n : String)
    (C : OpClass) (hC : conformsToCapabilitySet C = true) :
    register_operation reg n (.cls C) = .ok (dictSet reg n.toLower C) ∧
    create_operation (dictSet reg n.toLower C) n =
      .ok (⟨C⟩, dictSet reg n.toLower C) := by
  simp only [conformsToCapabilitySet, Bool.and_eq_true] at hC
  obtain ⟨h1, h2⟩ := hC
  have hinst := instantiate_of_isSome h2
  constructor
  · simp [register_operation, issubclassOperation, h1]
  · simp [create_operation, dictGet_dictSet, hinst]

/-- Witness for C6 at the spec's scenario: registering the conforming
`ModVariantClass` under "mod" and creating it again. -/
theorem register_then_create_roundtrip_witness :
    register_operation defaultOperations "mod" (.cls ModVariantClass) =
      .ok (dictSet defaultOperations "mod" ModVariantClass) ∧
    create_operation (dictSet defaultOperations "mod" ModVariantClass)
      "mod" = .ok (⟨ModVariantClass⟩,
        dictSet defaultOperations "mod" ModVariantClass) := by
  have h := register_then_create_roundtrip defaultOperations "mod"
    ModVariantClass rfl
  have hl : "mod".toLower = "mod" := by rw [toLower_eq]; rfl
  rw [hl] at h
  exact h

/-- Counterexample to claim C7 as stated: at dividend 5 and divisor 0 the
two divide-by-zero paths do not differ only in error kind — there is no
single message carried by both errors, because the standalone `divide`
says "Cannot divide by zero!" while `Division.execute` says "Division by
zero is not allowed". -/
theorem divide_error_not_only_kind :
    ¬ ∃ msg, divide 5 0 = .error (.valueError msg) ∧
        Division.execute 5 0 = .error (.validationError msg) := by
  rintro ⟨msg, h1, h2⟩
  have e1 : divide (5 : Decimal) 0 =
      .error (.valueError "Cannot divide by zero!") := rfl
  have e2 : Division.execute (5 : Decimal) 0 =
      .error (.validationError "Division by zero is not allowed") := rfl
  rw [e1] at h1
  rw [e2] at h2
  have m1 : "Cannot divide by zero!" = msg := by
    injection h1 with h
    injection h
  have m2 : "Division by zero is not allowed" = msg := by
    injection h2 with h
    injection h
  rw [← m1] at m2
  exact absurd m2 (by decide)

/-- Claim C7 (amended): the standalone `add`, `subtract`, `multiply`
agree with the class-based `execute` methods on all operand pairs, and
for nonzero divisors the standalone `divide` agrees with
`Division.execute`; on a zero divisor the two paths differ in both error
kind and message — `divide` raises the generic
`ValueError "Cannot divide by zero!"` while `Division.execute` raises
`ValidationError "Division by zero is not allowed"`. -/
theorem standalone_matches_class_operations (a b : Decimal) :
    Addition.execute a b = .ok (add a b) ∧
    Subtraction.execute a b = .ok (subtract a b) ∧
    Multiplication.execute a b = .ok (multiply a b) ∧
    (b ≠ 0 → divide a b = .ok (a / b) ∧
      Division.execute a b = .ok (a / b)) ∧
    (b = 0 → divide a b = .error (.valueError "Cannot divide by zero!") ∧
      Division.execute a b =
        .error (.validationError "Division by zero is not allowed")) := by
  refine ⟨rfl, rfl, rfl, ?_, ?_⟩
  · intro hb
    constructor
    · simp [divide, hb]
    · simp [Division.execute, Division.validate_operands,
        Operation.validate_operands, hb]
  · intro hb
    subst hb
    exact ⟨rfl, rfl⟩

/-- Witness for C7 at the operand pairs (6, 2) and (5, 0). -/
theorem standalone_matches_class_operations_witness :
    (divide 6 2 = .ok 3 ∧ Division.execute 6 2 = .ok 3) ∧
    divide 5 0 = .error (.valueError "Cannot divide by zero!") ∧
    Division.execute 5 0 =
      .error (.validationError "Division by zero is not allowed") := by
  have h1 := (standalone_matches_class_operations 6 2).2.2.2.1 (by norm_num)
  have h2 := (standalone_matches_class_operations 5 0).2.2.2.2 rfl
  have e : (6 : Decimal) / 2 = 3 := by norm_num
  rw [e] at h1
  exact ⟨h1, h2⟩

/-- Claim C8: for every name, `create_operation` leaves the registry
unchanged — it either raises an error (producing no registry at all) or
returns a fresh instance paired with exactly the registry it was given;
its only effect is instantiating the operation object. -/
theorem create_operation_preserves_registry (reg : Registry)
    (name : String) :
    (∃ e, create_operation reg name = .error e) ∨
    (∃ inst, create_operation reg name = .ok (inst, reg)) := by
  rcases hget : dictGet reg name.toLower with _ | c
  · exact .inl ⟨.valueError ("Unknown operation: " ++ name),
      by simp [create_operation, hget]⟩
  · rcases hinst : instantiate c with e | inst
    · exact .inl ⟨e, by simp [create_operation, hget, hinst]⟩
    · exact .inr ⟨inst, by simp [create_operation, hget, hinst]⟩

/-- Claim C9: the abstract base `Operation` itself passes
`register_operation`'s conformance check (`issubclass` answers true) even
though it does not conform to the capability set; its registration
succeeds and stores the entry, and the failure surfaces only later, when
`create_operation` attempts to instantiate it and hits a `TypeError`. -/
theorem abstract_registration_deferred_failure :
    issubclassOperation (.cls OperationBase) = .ok true ∧
    conformsToCapabilitySet OperationBase = false ∧
    register_operation defaultOperations "base" (.cls OperationBase) =
      .ok (dictSet defaultOperations "base" OperationBase) ∧
    dictGet (dictSet defaultOperations "base" OperationBase) "base" =
      some OperationBase ∧
    ∃ msg, create_operation (dictSet defaultOperations "base" OperationBase)
      "base" = .error (.typeError msg) := by
  have hl : "base".toLower = "base" := by rw [toLower_eq]; rfl
  refine ⟨rfl, rfl, ?_, rfl,
    ⟨"Cannot instantiate abstract class Operation with abstract method execute", ?_⟩⟩
  · simp only [register_operation, issubclassOperation, hl]
    rfl
  · simp only [create_operation, hl]
    rfl

/-- Claim C10: for every non-class argument, the conformance check
`issubclass` itself raises a `TypeError` rather than returning false, so
`register_operation` fails with that `TypeError` and no updated registry
is produced — the registry is left unchanged. -/
theorem nonclass_conformance_check_type_error (reg : Registry)
    (name : String) (descr : String) :
    issubclassOperation (.nonClass descr) =
      .error (.typeError "issubclass() arg 1 must be a class") ∧
    register_operation reg name (.nonClass descr) =
      .error (.typeError "issubclass() arg 1 must be a class") :=
  ⟨rfl, rfl⟩

end Ops
